import Mathlib

/-!
Verification development for the Ayurvedic herb traceability chaincode
(GeoFencing, HarvestValidation, QualityTest and Provenance contracts).

The ledger world state is modelled as association lists from keys to
records; JavaScript numbers that only flow through additions and order
comparisons are modelled as rationals; JSON object property presence is
modelled with Option; a thrown error is an `Except.error`.
-/

/-- Association-list lookup: first entry whose key matches, mirroring
JavaScript object property access. -/
def lookupA {α β : Type} [DecidableEq α] (k : α) : List (α × β) → Option β
  | [] => none
  | (k', v) :: rest => if k = k' then some v else lookupA k rest

/-- Update the value stored at a key (no-op when the key is absent),
mirroring in-place mutation of a JavaScript object property. -/
def updateA {α β : Type} [DecidableEq α] (k : α) (f : β → β) : List (α × β) → List (α × β)
  | [] => []
  | (k', v) :: rest => if k = k' then (k', f v) :: rest else (k', v) :: updateA k f rest

/-- Set the value at a key, inserting it when absent, mirroring
`putState` on the world state. -/
def setA {α β : Type} [DecidableEq α] (k : α) (v : β) : List (α × β) → List (α × β)
  | [] => [(k, v)]
  | (k', v') :: rest => if k = k' then (k, v) :: rest else (k', v') :: setA k v rest

theorem lookupA_updateA {α β : Type} [DecidableEq α] (k k' : α) (f : β → β)
    (l : List (α × β)) :
    lookupA k (updateA k' f l) = if k = k' then (lookupA k l).map f else lookupA k l := by
  induction l with
  | nil =>
    by_cases h : k = k' <;> simp [lookupA, updateA, h]
  | cons hd tl ih =>
    obtain ⟨a, b⟩ := hd
    by_cases h1 : k' = a
    · subst h1
      by_cases h2 : k = k'
      · subst h2; simp [lookupA, updateA]
      · simp [lookupA, updateA, h2]
    · by_cases h2 : k = a
      · subst h2
        have h3 : ¬k = k' := fun h => h1 h.symm
        simp [lookupA, updateA, h1, h3]
      · simp [lookupA, updateA, h1, h2, ih]

theorem lookupA_setA {α β : Type} [DecidableEq α] (k k' : α) (v : β)
    (l : List (α × β)) :
    lookupA k (setA k' v l) = if k = k' then some v else lookupA k l := by
  induction l with
  | nil => by_cases h : k = k' <;> simp [lookupA, setA, h]
  | cons hd tl ih =>
    obtain ⟨a, b⟩ := hd
    by_cases h1 : k' = a
    · subst h1
      by_cases h2 : k = k'
      · subst h2; simp [lookupA, setA]
      · simp [lookupA, setA, h2]
    · by_cases h2 : k = a
      · subst h2
        have h3 : ¬k = k' := fun h => h1 h.symm
        simp [lookupA, setA, h1, h3]
      · simp [lookupA, setA, h1, h2, ih]

theorem lookupA_updateA_self {α β : Type} [DecidableEq α] (k : α) (f : β → β)
    (l : List (α × β)) (v : β) (h : lookupA k l = some v) :
    lookupA k (updateA k f l) = some (f v) := by
  rw [lookupA_updateA, if_pos rfl, h]
  rfl

/-! ## Harvest validation contract: sustainability quota model

From `harvest-validation-contract.js`.  A yearly quota bucket holds a
ceiling and a consumption counter; the tracker maps year strings to
yearly data; farmer harvest history is keyed by the
`FARMER_HARVEST_farmerId_year` key, modelled as the pair
(farmerId, year) since year strings contain no underscore. -/

structure HerbQuota where
  quota : ℚ
  used : ℚ
deriving DecidableEq

structure YearQuota where
  totalQuota : ℚ
  usedQuota : ℚ
  herbQuotas : List (String × HerbQuota)
deriving DecidableEq

structure SustainabilityTracker where
  yearlyQuotas : List (String × YearQuota)
deriving DecidableEq

structure FarmerHistory where
  totalHarvest : ℚ
  herbHarvests : List (String × ℚ)
deriving DecidableEq

/-- World state slice owned by the harvest validation contract:
the SUSTAINABILITY_TRACKER key (None when the key was never written)
and the farmer history keys. -/
structure HarvestState where
  tracker : Option SustainabilityTracker
  farmers : List ((String × String) × FarmerHistory)
deriving DecidableEq

/-- Default per-herb allocations used by both initLedger and the lazy
per-year initialization in validateSustainabilityQuota. -/
def defaultHerbQuotas : List (String × HerbQuota) :=
  [("Ashwagandha", ⟨20000, 0⟩), ("Turmeric", ⟨25000, 0⟩), ("Tulsi", ⟨15000, 0⟩),
   ("Neem", ⟨10000, 0⟩), ("Brahmi", ⟨8000, 0⟩), ("Other", ⟨22000, 0⟩)]

def defaultYearQuota : YearQuota :=
  { totalQuota := 100000, usedQuota := 0, herbQuotas := defaultHerbQuotas }

/-- State produced by initLedger: a tracker holding the year 2024 with
the default allocations, and no farmer history. -/
def initHarvestState : HarvestState :=
  { tracker := some ⟨[("2024", defaultYearQuota)]⟩, farmers := [] }

/-- validateSustainabilityQuota(ctx, herbType, quantity, farmerId, harvestDate).
The harvest year derived from harvestDate is passed as the string `y`.
Initializing a missing year on the in-memory copy and then reading it is
modelled by defaulting the year lookup to defaultYearQuota; the persisted
state is never written.  Returns the isValid flag of the result object, or
an error for the hard throw paths (non-positive quantity, and the TypeError
raised when neither the herb nor the Other bucket exists). -/
def validateSustainabilityQuota (herbType : String) (quantity : ℚ) (farmerId : String)
    (y : String) (s : HarvestState) : Except String Bool :=
  if quantity ≤ 0 then .error "Harvest quantity must be positive"
  else
    let tracker : SustainabilityTracker := s.tracker.getD ⟨[]⟩
    let yearData : YearQuota := (lookupA y tracker.yearlyQuotas).getD defaultYearQuota
    match (lookupA herbType yearData.herbQuotas).orElse
        (fun _ => lookupA "Other" yearData.herbQuotas) with
    | none => .error "TypeError: cannot read properties of undefined"
    | some herbQuota =>
      let remainingQuota := herbQuota.quota - herbQuota.used
      let remainingTotalQuota := yearData.totalQuota - yearData.usedQuota
      if remainingQuota < quantity then .ok false
      else if remainingTotalQuota < quantity then .ok false
      else
        let farmerHistory : FarmerHistory :=
          (lookupA (farmerId, y) s.farmers).getD ⟨0, []⟩
        let maxFarmerQuota := yearData.totalQuota * (1 / 10)
        if maxFarmerQuota < farmerHistory.totalHarvest + quantity then .ok false
        else .ok true

/-- updateQuotaUsage(ctx, herbType, quantity, farmerId, harvestDate).
Dereferences the year entry of the persisted tracker without an existence
check (`tracker.yearlyQuotas[harvestYear].herbQuotas`): a missing tracker
or missing year is the thrown TypeError path.  Increments the herb bucket
(falling back to the Other bucket when the herb has none), the year total,
and the farmer history, then writes both keys back. -/
def updateQuotaUsage (herbType : String) (quantity : ℚ) (farmerId : String)
    (y : String) (s : HarvestState) : Except String HarvestState :=
  match s.tracker with
  | none => .error "SyntaxError: unexpected end of JSON input"
  | some tracker =>
    match lookupA y tracker.yearlyQuotas with
    | none => .error "TypeError: cannot read properties of undefined"
    | some yearData =>
      let effHerb := if (lookupA herbType yearData.herbQuotas).isSome then herbType else "Other"
      match lookupA effHerb yearData.herbQuotas with
      | none => .error "TypeError: cannot read properties of undefined"
      | some _ =>
        let yearData' : YearQuota :=
          { yearData with
            usedQuota := yearData.usedQuota + quantity,
            herbQuotas := updateA effHerb
              (fun b => { b with used := b.used + quantity }) yearData.herbQuotas }
        let tracker' : SustainabilityTracker :=
          ⟨updateA y (fun _ => yearData') tracker.yearlyQuotas⟩
        let farmerHistory : FarmerHistory :=
          (lookupA (farmerId, y) s.farmers).getD ⟨0, []⟩
        let farmerHistory' : FarmerHistory :=
          { totalHarvest := farmerHistory.totalHarvest + quantity,
            herbHarvests := setA herbType
              ((lookupA herbType farmerHistory.herbHarvests).getD 0 + quantity)
              farmerHistory.herbHarvests }
        .ok { tracker := some tracker', farmers := setA (farmerId, y) farmerHistory' s.farmers }

structure QuotaRequest where
  herbType : String
  quantity : ℚ
  farmerId : String
  year : String

/-- One validate-then-commit round: updateQuotaUsage runs only when
validateSustainabilityQuota returned isValid true for the same arguments
on the same state; a thrown commit aborts the transaction, leaving the
state unchanged. -/
def gatedStep (r : QuotaRequest) (s : HarvestState) : HarvestState :=
  match validateSustainabilityQuota r.herbType r.quantity r.farmerId r.year s with
  | .ok true =>
    match updateQuotaUsage r.herbType r.quantity r.farmerId r.year s with
    | .ok s' => s'
    | .error _ => s
  | _ => s

def runGated (rs : List QuotaRequest) (s : HarvestState) : HarvestState :=
  rs.foldl (fun s r => gatedStep r s) s

/-- Invariant of one yearly bucket: total consumption within the total
ceiling and each herb bucket within its ceiling. -/
def YearInv (yd : YearQuota) : Prop :=
  yd.usedQuota ≤ yd.totalQuota ∧
  ∀ h hq, lookupA h yd.herbQuotas = some hq → hq.used ≤ hq.quota

/-- Invariant of the harvest-contract state: every persisted year
satisfies YearInv, and every persisted farmer history stays within ten
percent of the total quota of its year (which then exists in the
tracker). -/
def TrackerInv (s : HarvestState) : Prop :=
  (∀ t, s.tracker = some t → ∀ y yd, lookupA y t.yearlyQuotas = some yd → YearInv yd) ∧
  (∀ fid y fh, lookupA (fid, y) s.farmers = some fh →
    ∃ t yd, s.tracker = some t ∧ lookupA y t.yearlyQuotas = some yd ∧
      fh.totalHarvest ≤ yd.totalQuota * (1 / 10))

theorem initHarvestState_inv : TrackerInv initHarvestState := by
  constructor
  · intro t ht y yd hyd
    simp only [initHarvestState] at ht
    cases ht
    simp only [lookupA] at hyd
    split_ifs at hyd with hy
    · cases hyd
      constructor
      · norm_num [defaultYearQuota]
      · intro h hq hl
        simp only [defaultYearQuota, defaultHerbQuotas, lookupA] at hl
        split_ifs at hl <;> (cases hl; norm_num)
  · intro fid y fh h
    simp only [initHarvestState, lookupA] at h
    exact Option.noConfusion h

theorem trackerInv_mk (tr' : SustainabilityTracker)
    (fs : List ((String × String) × FarmerHistory))
    (hA : ∀ y yd, lookupA y tr'.yearlyQuotas = some yd → YearInv yd)
    (hB : ∀ fid y fh, lookupA (fid, y) fs = some fh →
      ∃ yd, lookupA y tr'.yearlyQuotas = some yd ∧
        fh.totalHarvest ≤ yd.totalQuota * (1 / 10)) :
    TrackerInv { tracker := some tr', farmers := fs } := by
  constructor
  · intro t ht y yd hl
    have ht' : some tr' = some t := ht
    injection ht' with h
    subst h
    exact hA y yd hl
  · intro fid y fh hl
    obtain ⟨yd, h1, h2⟩ := hB fid y fh hl
    exact ⟨tr', yd, rfl, h1, h2⟩

theorem gatedStep_preserves (r : QuotaRequest) (s : HarvestState)
    (hInv : TrackerInv s) : TrackerInv (gatedStep r s) := by
  unfold gatedStep
  split
  case _ hval =>
    split
    case _ s' hcommit =>
      rcases htr : s.tracker with _ | tr
      · simp only [updateQuotaUsage, htr] at hcommit
        exact Except.noConfusion hcommit
      simp only [updateQuotaUsage, htr] at hcommit
      rcases hy : lookupA r.year tr.yearlyQuotas with _ | yd
      · simp only [hy] at hcommit
        exact Except.noConfusion hcommit
      simp only [hy] at hcommit
      rcases hb : lookupA (if (lookupA r.herbType yd.herbQuotas).isSome then r.herbType
          else "Other") yd.herbQuotas with _ | hq
      · simp only [hb] at hcommit
        exact Except.noConfusion hcommit
      simp only [hb, Except.ok.injEq] at hcommit
      subst hcommit
      -- relate the bucket chosen by the commit to the one checked by validation
      have hbv : ((lookupA r.herbType yd.herbQuotas).orElse
          (fun _ => lookupA "Other" yd.herbQuotas)) = some hq := by
        rcases hherb : lookupA r.herbType yd.herbQuotas with _ | hq0
        · have hb' : lookupA "Other" yd.herbQuotas = some hq := by
            simpa [hherb] using hb
          simpa [Option.orElse] using hb'
        · have hb' : lookupA r.herbType yd.herbQuotas = some hq := by
            simpa [hherb] using hb
          rw [hherb] at hb'
          simpa [Option.orElse] using hb'
      -- extract the inequalities guaranteed by the successful validation
      rw [validateSustainabilityQuota] at hval
      simp only [htr, Option.getD_some, hy, hbv] at hval
      split_ifs at hval with h1 h2 h3 h4
      · simp at hval
      · simp at hval
      · simp at hval
      -- h1 : ¬(quantity ≤ 0), h2 : ¬(quota - used < quantity),
      -- h3 : ¬(totalQuota - usedQuota < quantity), h4 : ¬(max < total + quantity)
      refine trackerInv_mk _ _ ?_ ?_
      · intro y2 yd2 hl
        rw [lookupA_updateA] at hl
        by_cases hy2 : y2 = r.year
        · rw [if_pos hy2, hy2, hy] at hl
          simp only [Option.map_some', Option.some.injEq] at hl
          subst hl
          constructor
          · show yd.usedQuota + r.quantity ≤ yd.totalQuota
            linarith
          · intro h2x hq2 hl2
            have hl2' : lookupA h2x (updateA
                (if (lookupA r.herbType yd.herbQuotas).isSome then r.herbType else "Other")
                (fun b => { b with used := b.used + r.quantity }) yd.herbQuotas) = some hq2 := hl2
            rw [lookupA_updateA] at hl2'
            by_cases hh : h2x = (if (lookupA r.herbType yd.herbQuotas).isSome then r.herbType
                else "Other")
            · rw [if_pos hh, hh, hb] at hl2'
              simp only [Option.map_some', Option.some.injEq] at hl2'
              subst hl2'
              show hq.used + r.quantity ≤ hq.quota
              linarith
            · rw [if_neg hh] at hl2'
              exact (hInv.1 tr htr r.year yd hy).2 h2x hq2 hl2'
        · rw [if_neg hy2] at hl
          exact hInv.1 tr htr y2 yd2 hl
      · intro fid2 y2 fh2 hl
        rw [lookupA_setA] at hl
        by_cases hk : (fid2, y2) = (r.farmerId, r.year)
        · rw [if_pos hk] at hl
          simp only [Option.some.injEq] at hl
          subst hl
          rw [Prod.mk.injEq] at hk
          obtain ⟨hfid2, hy2⟩ := hk
          subst hfid2; subst hy2
          refine ⟨_, lookupA_updateA_self r.year _ tr.yearlyQuotas yd hy, ?_⟩
          show ((lookupA (r.farmerId, r.year) s.farmers).getD
              ⟨0, []⟩).totalHarvest + r.quantity ≤ yd.totalQuota * (1 / 10)
          linarith
        · rw [if_neg hk] at hl
          obtain ⟨t0, yd0, ht0, hl0, hb0⟩ := hInv.2 fid2 y2 fh2 hl
          rw [htr] at ht0
          simp only [Option.some.injEq] at ht0
          subst ht0
          by_cases hy2 : y2 = r.year
          · subst hy2
            rw [hl0] at hy
            simp only [Option.some.injEq] at hy
            subst hy
            refine ⟨_, lookupA_updateA_self r.year _ tr.yearlyQuotas yd0 hl0, ?_⟩
            exact hb0
          · exact ⟨yd0, by rw [lookupA_updateA, if_neg hy2]; exact hl0, hb0⟩
    case _ hcommit => exact hInv
  case _ => exact hInv

/-- Claim C1: for every finite sequence of quota operations in which each
updateQuotaUsage (commitQuota) is immediately preceded by a
validateSustainabilityQuota call with the same herbType, quantity,
farmerId and harvestDate that returned isValid true, and no other quota
mutation occurs, after every operation the tracker satisfies: per-herb
used is at most quota, the usedQuota of each year is at most its
totalQuota, and every farmer harvest-history total is at most ten
percent of the totalQuota of its year. -/
theorem quota_gated_sequence_invariant (rs : List QuotaRequest) (s : HarvestState)
    (h : TrackerInv s) : TrackerInv (runGated rs s) := by
  induction rs generalizing s with
  | nil => exact h
  | cons r rest ih => exact ih (gatedStep r s) (gatedStep_preserves r s h)

theorem quota_gated_sequence_invariant_witness :
    TrackerInv (runGated [⟨"Ashwagandha", 100, "FARMER1", "2024"⟩] initHarvestState) :=
  quota_gated_sequence_invariant _ _ initHarvestState_inv

/-- Claim C2: for every input whose harvest year is present in the persisted
tracker (and whose herb bucket, or the Other fallback bucket, exists),
updateQuotaUsage succeeds unconditionally, with no validation hypothesis,
and increments the effective per-herb used, the usedQuota of the year,
the farmer totalHarvest, and the farmer herbHarvests entry for that herb,
each by exactly the requested quantity, leaving the ceilings unchanged. -/
theorem updateQuotaUsage_strictly_additive
    (herbType : String) (quantity : ℚ) (farmerId y : String) (s : HarvestState)
    (tr : SustainabilityTracker) (yd : YearQuota) (hq : HerbQuota)
    (htr : s.tracker = some tr)
    (hy : lookupA y tr.yearlyQuotas = some yd)
    (hb : lookupA (if (lookupA herbType yd.herbQuotas).isSome then herbType else "Other")
        yd.herbQuotas = some hq) :
    ∃ s' tr' yd' hq' fh',
      updateQuotaUsage herbType quantity farmerId y s = .ok s' ∧
      s'.tracker = some tr' ∧
      lookupA y tr'.yearlyQuotas = some yd' ∧
      yd'.totalQuota = yd.totalQuota ∧
      yd'.usedQuota = yd.usedQuota + quantity ∧
      lookupA (if (lookupA herbType yd.herbQuotas).isSome then herbType else "Other")
        yd'.herbQuotas = some hq' ∧
      hq'.quota = hq.quota ∧
      hq'.used = hq.used + quantity ∧
      lookupA (farmerId, y) s'.farmers = some fh' ∧
      fh'.totalHarvest =
        ((lookupA (farmerId, y) s.farmers).getD ⟨0, []⟩).totalHarvest + quantity ∧
      lookupA herbType fh'.herbHarvests = some
        ((lookupA herbType
          ((lookupA (farmerId, y) s.farmers).getD ⟨0, []⟩).herbHarvests).getD 0 + quantity) := by
  have hcommit : updateQuotaUsage herbType quantity farmerId y s = .ok
      { tracker := some ⟨updateA y (fun _ =>
          { yd with
            usedQuota := yd.usedQuota + quantity,
            herbQuotas := updateA
              (if (lookupA herbType yd.herbQuotas).isSome then herbType else "Other")
              (fun b => { b with used := b.used + quantity }) yd.herbQuotas }) tr.yearlyQuotas⟩,
        farmers := setA (farmerId, y)
          { totalHarvest :=
              ((lookupA (farmerId, y) s.farmers).getD ⟨0, []⟩).totalHarvest + quantity,
            herbHarvests := setA herbType
              ((lookupA herbType
                ((lookupA (farmerId, y) s.farmers).getD ⟨0, []⟩).herbHarvests).getD 0 + quantity)
              ((lookupA (farmerId, y) s.farmers).getD ⟨0, []⟩).herbHarvests } s.farmers } := by
    simp only [updateQuotaUsage, htr, hy, hb]
  refine ⟨_, _, _, _,
    { totalHarvest :=
        ((lookupA (farmerId, y) s.farmers).getD ⟨0, []⟩).totalHarvest + quantity,
      herbHarvests := setA herbType
        ((lookupA herbType
          ((lookupA (farmerId, y) s.farmers).getD ⟨0, []⟩).herbHarvests).getD 0 + quantity)
        ((lookupA (farmerId, y) s.farmers).getD ⟨0, []⟩).herbHarvests },
    hcommit, rfl,
    lookupA_updateA_self y _ tr.yearlyQuotas yd hy, rfl, rfl,
    lookupA_updateA_self _ _ yd.herbQuotas hq hb, rfl, rfl,
    ?_, rfl, ?_⟩
  · rw [lookupA_setA, if_pos rfl]
  · show lookupA herbType (setA herbType _ _) = _
    rw [lookupA_setA, if_pos rfl]

theorem updateQuotaUsage_strictly_additive_witness :
    ∃ s' tr' yd' hq' fh',
      updateQuotaUsage "Ashwagandha" 50 "F1" "2024" initHarvestState = .ok s' ∧
      s'.tracker = some tr' ∧
      lookupA "2024" tr'.yearlyQuotas = some yd' ∧
      yd'.totalQuota = defaultYearQuota.totalQuota ∧
      yd'.usedQuota = defaultYearQuota.usedQuota + 50 ∧
      lookupA (if (lookupA "Ashwagandha" defaultYearQuota.herbQuotas).isSome
          then "Ashwagandha" else "Other") yd'.herbQuotas = some hq' ∧
      hq'.quota = (20000 : ℚ) ∧
      hq'.used = (0 : ℚ) + 50 ∧
      lookupA ("F1", "2024") s'.farmers = some fh' ∧
      fh'.totalHarvest =
        ((lookupA ("F1", "2024") initHarvestState.farmers).getD ⟨0, []⟩).totalHarvest + 50 ∧
      lookupA "Ashwagandha" fh'.herbHarvests = some
        ((lookupA "Ashwagandha"
          ((lookupA ("F1", "2024") initHarvestState.farmers).getD
            ⟨0, []⟩).herbHarvests).getD 0 + 50) :=
  updateQuotaUsage_strictly_additive "Ashwagandha" 50 "F1" "2024" initHarvestState
    ⟨[("2024", defaultYearQuota)]⟩ defaultYearQuota ⟨20000, 0⟩ rfl rfl rfl

/-- Claim C9: for every harvest year absent from the persisted tracker,
updateQuotaUsage throws even when validateSustainabilityQuota approved
the identical request on the identical state, because the validation
initializes the missing year only on its in-memory copy (it never writes
the tracker back, as its type State to Result shows) while the commit
dereferences the year entry without an existence check. -/
theorem updateQuotaUsage_missing_year_throws
    (herbType : String) (quantity : ℚ) (farmerId y : String) (s : HarvestState)
    (tr : SustainabilityTracker)
    (htr : s.tracker = some tr)
    (hy : lookupA y tr.yearlyQuotas = none)
    (hval : validateSustainabilityQuota herbType quantity farmerId y s = .ok true) :
    updateQuotaUsage herbType quantity farmerId y s =
      .error "TypeError: cannot read properties of undefined" := by
  simp only [updateQuotaUsage, htr, hy]

theorem updateQuotaUsage_missing_year_throws_witness :
    validateSustainabilityQuota "Ashwagandha" 100 "FARMER1" "2025"
      ⟨some ⟨[]⟩, []⟩ = .ok true ∧
    updateQuotaUsage "Ashwagandha" 100 "FARMER1" "2025" ⟨some ⟨[]⟩, []⟩ =
      .error "TypeError: cannot read properties of undefined" := by
  have hval : validateSustainabilityQuota "Ashwagandha" 100 "FARMER1" "2025"
      ⟨some ⟨[]⟩, []⟩ = .ok true := by
    norm_num [validateSustainabilityQuota, lookupA, defaultYearQuota, defaultHerbQuotas,
      Option.orElse]
  exact ⟨hval, updateQuotaUsage_missing_year_throws "Ashwagandha" 100 "FARMER1" "2025"
    ⟨some ⟨[]⟩, []⟩ ⟨[]⟩ rfl rfl hval⟩

/-! ## Provenance contract: finalizePackaging

From `provenance-contract.js`.  The record slice models the fields that
finalizePackaging reads and writes (batchId, currentStatus,
distributionInfo, version, lastUpdated); the random QR code identifier
produced by generateQRCodeData and the wall-clock timestamp are passed
as parameters. -/

structure DistBase where
  distributorId : Option String
  distributorName : Option String
  packageType : Option String
  packageWeight : Option ℚ
deriving DecidableEq

structure DistInfo where
  base : DistBase
  packageDate : String
  qrCodeId : String
  qrCodeUrl : String
deriving DecidableEq

structure ProvenanceRecord where
  batchId : String
  currentStatus : String
  distributionInfo : Option DistInfo
  version : ℕ
  lastUpdated : String
deriving DecidableEq

structure QRMapping where
  qrCodeId : String
  batchId : String
  url : String
  generatedAt : String
deriving DecidableEq

/-- World state slice of the provenance contract: batch records keyed by
batchId and QR mappings keyed by the prefixed QR_ key. -/
structure ProvenanceState where
  records : List (String × ProvenanceRecord)
  qrCodes : List (String × QRMapping)
deriving DecidableEq

/-- URL built by TraceabilityUtils.generateQRCodeData for a batch and a
freshly drawn qrCodeId. -/
def generateQRCodeUrl (batchId qrCodeId : String) : String :=
  "https://traceability.ayurveda.com/trace/" ++ batchId ++ "?qr=" ++ qrCodeId

/-- finalizePackaging(ctx, batchId, distributionData): requires the batch
to exist and its currentStatus to be exactly Tested-Pass, generates the
QR code data, merges it into distributionInfo, sets the status to
Packaged, bumps the version and stores the QR mapping under the QR_
prefixed lookup key. -/
def finalizePackaging (now qrCodeId batchId : String) (d : DistBase)
    (st : ProvenanceState) : Except String ProvenanceState :=
  match lookupA batchId st.records with
  | none => .error ("Batch " ++ batchId ++ " not found")
  | some record =>
    if record.currentStatus ≠ "Tested-Pass" then
      .error ("Batch " ++ batchId ++
        " must pass quality tests before packaging. Current status: " ++ record.currentStatus)
    else
      let url := generateQRCodeUrl batchId qrCodeId
      let record' : ProvenanceRecord :=
        { record with
          currentStatus := "Packaged",
          distributionInfo := some ⟨d, now, qrCodeId, url⟩,
          version := record.version + 1,
          lastUpdated := now }
      let mapping : QRMapping := ⟨qrCodeId, batchId, url, now⟩
      .ok { records := setA batchId record' st.records,
            qrCodes := setA ("QR_" ++ qrCodeId) mapping st.qrCodes }

/-- Claim C3: finalizePackaging throws for every existing batch whose
currentStatus is any value other than Tested-Pass; when the status is
exactly Tested-Pass it succeeds, sets the status to Packaged, and stores
a QR mapping under the separate QR_ lookup key whose batchId field binds
it one to one to the batch, with the qrCodeId also recorded on the
record itself. -/
theorem finalizePackaging_requires_tested_pass
    (now qrCodeId batchId : String) (d : DistBase) (st : ProvenanceState)
    (r : ProvenanceRecord) (hr : lookupA batchId st.records = some r) :
    (r.currentStatus ≠ "Tested-Pass" →
      ∃ e, finalizePackaging now qrCodeId batchId d st = .error e) ∧
    (r.currentStatus = "Tested-Pass" →
      ∃ st', finalizePackaging now qrCodeId batchId d st = .ok st' ∧
        (∃ r', lookupA batchId st'.records = some r' ∧
          r'.currentStatus = "Packaged" ∧
          ∃ di, r'.distributionInfo = some di ∧ di.qrCodeId = qrCodeId) ∧
        (∃ m, lookupA ("QR_" ++ qrCodeId) st'.qrCodes = some m ∧
          m.batchId = batchId ∧ m.qrCodeId = qrCodeId)) := by
  constructor
  · intro hne
    simp only [finalizePackaging, hr]
    rw [if_pos hne]
    exact ⟨_, rfl⟩
  · intro heq
    simp only [finalizePackaging, hr]
    rw [if_neg (by simp [heq])]
    refine ⟨_, rfl,
      ⟨{ r with
          currentStatus := "Packaged",
          distributionInfo := some ⟨d, now, qrCodeId, generateQRCodeUrl batchId qrCodeId⟩,
          version := r.version + 1,
          lastUpdated := now }, ?_, rfl,
        ⟨d, now, qrCodeId, generateQRCodeUrl batchId qrCodeId⟩, rfl, rfl⟩,
      ⟨qrCodeId, batchId, generateQRCodeUrl batchId qrCodeId, now⟩, ?_, rfl, rfl⟩
    · show lookupA batchId (setA batchId _ _) = _
      rw [lookupA_setA, if_pos rfl]
    · show lookupA _ (setA _ _ _) = _
      rw [lookupA_setA, if_pos rfl]

def provRecC3 (status : String) : ProvenanceRecord :=
  { batchId := "BATCH1", currentStatus := status, distributionInfo := none,
    version := 1, lastUpdated := "T0" }

def provStC3 (status : String) : ProvenanceState :=
  ⟨[("BATCH1", provRecC3 status)], []⟩

theorem finalizePackaging_requires_tested_pass_witness :
    (∃ e, finalizePackaging "T1" "QRID1" "BATCH1" ⟨none, none, none, none⟩
      (provStC3 "Collected") = .error e) ∧
    (∃ st', finalizePackaging "T1" "QRID1" "BATCH1" ⟨none, none, none, none⟩
        (provStC3 "Tested-Pass") = .ok st' ∧
      (∃ r', lookupA "BATCH1" st'.records = some r' ∧
        r'.currentStatus = "Packaged" ∧
        ∃ di, r'.distributionInfo = some di ∧ di.qrCodeId = "QRID1") ∧
      (∃ m, lookupA ("QR_" ++ "QRID1") st'.qrCodes = some m ∧
        m.batchId = "BATCH1" ∧ m.qrCodeId = "QRID1")) :=
  ⟨(finalizePackaging_requires_tested_pass "T1" "QRID1" "BATCH1" ⟨none, none, none, none⟩
      (provStC3 "Collected") (provRecC3 "Collected") rfl).1 (by decide),
   (finalizePackaging_requires_tested_pass "T1" "QRID1" "BATCH1" ⟨none, none, none, none⟩
      (provStC3 "Tested-Pass") (provRecC3 "Tested-Pass") rfl).2 rfl⟩

/-! ## Quality test contract: standards, validation, hashing

From `quality-test-contract.js` and `schemas.js`.  A standard object maps
parameter names to bound records; the dynamic top-level property access
`standard[principle.toLowerCase()]` used for active principles is
modelled by the `minBounds` association list (entries of the standard
object that carry a min field, keyed by lower-case name), together with
the `activePrinciples` flag recording whether the standard object has an
`activePrinciples` property (the guard of that comparison branch; the
stored standards have none).  SHA-256 is modelled as an abstract hash
function `H` on the payload with the dataHash field held separately,
mirroring the delete-recompute-restore sequence of the source.  The
`passedTests` output list and the batch test history update are not
modelled; no claim mentions them. -/

structure MaxBound where
  max : ℚ
  unit : String
deriving DecidableEq

structure MinBound where
  min : ℚ
  unit : String
deriving DecidableEq

inductive MicrobialStd
  | str (s : String)
  | bound (max : ℚ) (unit : String)
deriving DecidableEq

inductive MicrobialVal
  | num (v : ℚ)
  | str (s : String)
deriving DecidableEq

structure QualityStandard where
  moisture : Option MaxBound
  ash : Option MaxBound
  foreignMatter : Option MaxBound
  activePrinciples : Bool
  minBounds : List (String × MinBound)
  heavyMetals : Option (List (String × MaxBound))
  microbialLimits : Option (List (String × MicrobialStd))
deriving DecidableEq

structure Pesticide where
  pesticideName : String
  concentration : ℚ
  mrl : ℚ
  status : String
deriving DecidableEq

structure DnaAuthenticity where
  speciesConfirmed : Bool
  geneticMarkers : Option (List String)
  dnaMatchPercentage : Option ℚ
  contaminationDetected : Option Bool
deriving DecidableEq

/-- One entry of the violations list; the message strings pushed by the
source are represented by the parameter name and the numbers quoted in
the message. -/
inductive Violation
  | moisture (v max : ℚ)
  | ash (v max : ℚ)
  | foreignMatter (v max : ℚ)
  | activePrinciple (name : String) (v min : ℚ)
  | heavyMetal (name : String) (v max : ℚ)
  | pesticide (name : String) (v mrl : ℚ)
  | microbialAbsent (name : String) (found : MicrobialVal)
  | microbialCount (name : String) (v max : ℚ)
  | dnaSpeciesNotConfirmed
  | dnaContamination
deriving DecidableEq

inductive TestWarning
  | dnaMatchLow (pct : ℚ)
deriving DecidableEq

structure ValidationResult where
  isValid : Bool
  violations : List Violation
  warnings : List TestWarning
  standard : QualityStandard
  herbType : String
  overallScore : ℚ
deriving DecidableEq

structure QualityTest where
  testId : String
  batchId : String
  labId : String
  labName : String
  labCertification : String
  testType : String
  testDate : String
  sampleId : String
  sampleQuantity : ℚ
  herbType : Option String
  moistureContent : Option ℚ
  ashContent : Option ℚ
  foreignMatter : Option ℚ
  activePrinciples : Option (List (String × ℚ))
  heavyMetals : Option (List (String × ℚ))
  pesticideResidues : Option (List Pesticide)
  microbialCount : Option (List (String × MicrobialVal))
  dnaAuthenticity : Option DnaAuthenticity
  overallResult : String
  testerId : String
  createdAt : Option String
  validationResult : Option ValidationResult
deriving DecidableEq

structure LabCert where
  labId : String
  labName : String
  certification : String
  accreditationNumber : Option String
  validUntil : Option String
  testCapabilities : List String
  isActive : Bool
deriving DecidableEq

/-- Shared shape of the moisture, ash and foreign-matter checks: a
present value above a present max bound is one violation; a missing
value or a missing bound produces none. -/
def maxBoundViolations (v : Option ℚ) (o : Option MaxBound)
    (mk : ℚ → ℚ → Violation) : List Violation :=
  match v with
  | none => []
  | some x =>
    match o with
    | some b => if b.max < x then [mk x b.max] else []
    | none => []

def moistureViolations (t : QualityTest) (std : QualityStandard) : List Violation :=
  maxBoundViolations t.moistureContent std.moisture Violation.moisture

def ashViolations (t : QualityTest) (std : QualityStandard) : List Violation :=
  maxBoundViolations t.ashContent std.ash Violation.ash

def foreignMatterViolations (t : QualityTest) (std : QualityStandard) : List Violation :=
  maxBoundViolations t.foreignMatter std.foreignMatter Violation.foreignMatter

/-- Active principles: guarded by presence of the field on the test and
of the activePrinciples property on the standard; a violation needs a
truthy min (nonzero) and a concentration strictly below it. -/
def principleViolations (t : QualityTest) (std : QualityStandard) : List Violation :=
  match t.activePrinciples with
  | none => []
  | some l =>
    if std.activePrinciples then
      l.filterMap (fun e =>
        match lookupA e.1.toLower std.minBounds with
        | some lim =>
          if lim.min ≠ 0 ∧ e.2 < lim.min then
            some (.activePrinciple e.1 e.2 lim.min)
          else none
        | none => none)
    else []

def heavyMetalViolations (t : QualityTest) (std : QualityStandard) : List Violation :=
  match t.heavyMetals, std.heavyMetals with
  | some l, some sl =>
    l.filterMap (fun e =>
      match lookupA e.1 sl with
      | some b => if b.max < e.2 then some (.heavyMetal e.1 e.2 b.max) else none
      | none => none)
  | _, _ => []

def pesticideViolations (t : QualityTest) : List Violation :=
  match t.pesticideResidues with
  | none => []
  | some l =>
    l.filterMap (fun p =>
      if p.status = "Fail" ∨ p.mrl < p.concentration then
        some (.pesticide p.pesticideName p.concentration p.mrl)
      else none)

def microbialViolations (t : QualityTest) (std : QualityStandard) : List Violation :=
  match t.microbialCount, std.microbialLimits with
  | some l, some sl =>
    l.filterMap (fun e =>
      match lookupA e.1 sl with
      | some (.str s) =>
        if s = "Absent" ∧ e.2 ≠ MicrobialVal.str "Absent" then
          some (.microbialAbsent e.1 e.2)
        else none
      | some (.bound m _) =>
        match e.2 with
        | .num c => if m < c then some (.microbialCount e.1 c m) else none
        | .str _ => none
      | none => none)
  | _, _ => []

def dnaViolations (t : QualityTest) : List Violation :=
  match t.dnaAuthenticity with
  | none => []
  | some d =>
    (if d.speciesConfirmed then [] else [.dnaSpeciesNotConfirmed]) ++
    (if d.contaminationDetected = some true then [.dnaContamination] else [])

def dnaWarnings (t : QualityTest) : List TestWarning :=
  match t.dnaAuthenticity with
  | none => []
  | some d =>
    match d.dnaMatchPercentage with
    | some p => if p ≠ 0 ∧ p < 95 then [.dnaMatchLow p] else []
    | none => []

/-- The violations list in the order the source pushes entries. -/
def allViolations (t : QualityTest) (std : QualityStandard) : List Violation :=
  moistureViolations t std ++ ashViolations t std ++ foreignMatterViolations t std ++
  principleViolations t std ++ heavyMetalViolations t std ++ pesticideViolations t ++
  microbialViolations t std ++ dnaViolations t

/-- Body of validateTestResults once the standard has been selected. -/
def validateTestResultsStd (t : QualityTest) (std : QualityStandard)
    (herbType : String) : ValidationResult :=
  let violations := allViolations t std
  let warnings := dnaWarnings t
  let isValid := violations.isEmpty
  { isValid := isValid, violations := violations, warnings := warnings,
    standard := std, herbType := herbType,
    overallScore := if isValid then (if 0 < warnings.length then 85 else 100) else 0 }

/-- validateTestResults: selects the standard for the herb with fallback
to the default entry; a store with neither is the TypeError path. -/
def validateTestResults (stds : List (String × QualityStandard)) (t : QualityTest)
    (herbType : String) : Except String ValidationResult :=
  match (lookupA herbType stds).orElse (fun _ => lookupA "default" stds) with
  | none => .error "TypeError: cannot read properties of undefined"
  | some std => .ok (validateTestResultsStd t std herbType)

/-- Derivation of overallResult in submitTestResults: any violation
means Fail, otherwise at least one warning means Conditional-Pass,
otherwise Pass. -/
def deriveOverallResult (vr : ValidationResult) : String :=
  if vr.isValid = false then "Fail"
  else if 0 < vr.warnings.length then "Conditional-Pass"
  else "Pass"

def percentRangeOk (o : Option ℚ) : Bool :=
  match o with
  | none => true
  | some v => decide (0 ≤ v) && decide (v ≤ 100)

/-- Joi qualityTestSchema: required string fields are non-optional in
the record type; the numeric constraints (percentages within 0 to 100,
nonnegative concentrations, positive sample quantity) and the valid
enumerations are checked here. -/
def qualityTestSchemaOk (t : QualityTest) : Bool :=
  ["Physical", "Chemical", "Microbiological", "DNA", "Pesticide-Residue"].contains t.testType &&
  ["Pass", "Fail", "Conditional-Pass"].contains t.overallResult &&
  decide (0 < t.sampleQuantity) &&
  percentRangeOk t.moistureContent &&
  percentRangeOk t.ashContent &&
  percentRangeOk t.foreignMatter &&
  (match t.activePrinciples with
   | none => true
   | some l => l.all (fun e => decide (0 ≤ e.2))) &&
  (match t.heavyMetals with
   | none => true
   | some l => l.all (fun e => decide (0 ≤ e.2))) &&
  (match t.pesticideResidues with
   | none => true
   | some l => l.all (fun p =>
      decide (0 ≤ p.concentration) && decide (0 ≤ p.mrl) &&
      (p.status == "Pass" || p.status == "Fail"))) &&
  (match t.microbialCount with
   | none => true
   | some l => l.all (fun e =>
      match e.2 with
      | .num v => decide (0 ≤ v)
      | .str s => s == "Absent" || s == "Present")) &&
  (match t.dnaAuthenticity with
   | none => true
   | some d =>
     match d.dnaMatchPercentage with
     | none => true
     | some p => decide (0 ≤ p) && decide (p ≤ 100))

structure StoredTest where
  payload : QualityTest
  dataHash : String
deriving DecidableEq

/-- submitTestResults(ctx, testData): permission gate, schema check,
duplicate check, lab certification checks, standards comparison, result
derivation, hash stamping over the record without its dataHash field,
and persistence under the testId key. -/
def submitTestResults (H : QualityTest → String) (msp : String)
    (stds : List (String × QualityStandard)) (labs : List (String × LabCert))
    (store : List (String × StoredTest)) (now : String) (t : QualityTest) :
    Except String (List (String × StoredTest) × String) :=
  if msp ≠ "LabMSP" then .error "Only certified labs can submit test results"
  else if ¬ qualityTestSchemaOk t then .error "Invalid test data"
  else if (lookupA t.testId store).isSome then .error ("Test " ++ t.testId ++ " already exists")
  else
    match lookupA t.labId labs with
    | none => .error ("Lab " ++ t.labId ++ " is not certified")
    | some cert =>
      if ¬ cert.isActive then .error ("Lab " ++ t.labId ++ " certification is inactive")
      else if ¬ cert.testCapabilities.contains t.testType then
        .error ("Lab " ++ t.labId ++ " is not certified for " ++ t.testType ++ " testing")
      else
        match validateTestResults stds t (t.herbType.getD "default") with
        | .error e => .error e
        | .ok vr =>
          let result := deriveOverallResult vr
          let value : QualityTest :=
            { t with
              validationResult := some vr,
              overallResult := result,
              createdAt := some now }
          .ok (setA t.testId ⟨value, H value⟩ store, result)

/-- verifyTestAuthenticity(ctx, testId): recomputes the hash over the
stored payload with the dataHash field removed and compares it with the
stored hash, returning the isAuthentic flag with both hashes. -/
def verifyTestAuthenticity (H : QualityTest → String)
    (store : List (String × StoredTest)) (testId : String) :
    Except String (Bool × String × String) :=
  match lookupA testId store with
  | none => .error ("Test " ++ testId ++ " not found")
  | some stored =>
    let calculatedHash := H stored.payload
    .ok (stored.dataHash == calculatedHash, stored.dataHash, calculatedHash)

def stdHeavyMetals : List (String × MaxBound) :=
  [("lead", ⟨10, "ppm"⟩), ("mercury", ⟨1, "ppm"⟩), ("cadmium", ⟨3/10, "ppm"⟩),
   ("arsenic", ⟨3, "ppm"⟩)]

def stdMicrobialLimits : List (String × MicrobialStd) :=
  [("totalBacterialCount", .bound 100000 "CFU/g"), ("yeastMoldCount", .bound 1000 "CFU/g"),
   ("salmonella", .str "Absent"), ("ecoli", .bound 10 "CFU/g")]

/-- The default quality standard initialized by initLedger. -/
def defaultStandard : QualityStandard :=
  { moisture := some ⟨15, "%"⟩, ash := some ⟨10, "%"⟩, foreignMatter := some ⟨3, "%"⟩,
    activePrinciples := false, minBounds := [],
    heavyMetals := some stdHeavyMetals, microbialLimits := some stdMicrobialLimits }

/-- The quality standards store initialized by initLedger. -/
def initQualityStandards : List (String × QualityStandard) :=
  [("Ashwagandha",
    { moisture := some ⟨12, "%"⟩, ash := some ⟨8, "%"⟩, foreignMatter := some ⟨2, "%"⟩,
      activePrinciples := false, minBounds := [("withanolides", ⟨3/10, "%"⟩)],
      heavyMetals := some stdHeavyMetals, microbialLimits := some stdMicrobialLimits }),
   ("Turmeric",
    { moisture := some ⟨10, "%"⟩, ash := some ⟨9, "%"⟩, foreignMatter := some ⟨1, "%"⟩,
      activePrinciples := false, minBounds := [("curcumin", ⟨2, "%"⟩)],
      heavyMetals := some stdHeavyMetals, microbialLimits := some stdMicrobialLimits }),
   ("default", defaultStandard)]

/-- The lab certifications initialized by initLedger. -/
def initLabs : List (String × LabCert) :=
  [("LAB001",
    { labId := "LAB001", labName := "Ayurveda Research Institute Lab",
      certification := "NABL-ISO17025", accreditationNumber := some "TC-1234",
      validUntil := some "2025-12-31",
      testCapabilities := ["Physical", "Chemical", "Microbiological", "DNA", "Pesticide-Residue"],
      isActive := true }),
   ("LAB002",
    { labId := "LAB002", labName := "Herbal Quality Control Lab",
      certification := "NABL-ISO17025", accreditationNumber := some "TC-5678",
      validUntil := some "2025-06-30",
      testCapabilities := ["Physical", "Chemical", "Pesticide-Residue"],
      isActive := true })]

theorem submitTestResults_ok_shape
    (H : QualityTest → String) (msp : String)
    (stds : List (String × QualityStandard)) (labs : List (String × LabCert))
    (store : List (String × StoredTest)) (now : String) (t : QualityTest)
    (st' : List (String × StoredTest)) (res : String)
    (h : submitTestResults H msp stds labs store now t = .ok (st', res)) :
    ∃ std, ((lookupA (t.herbType.getD "default") stds).orElse
        (fun _ => lookupA "default" stds)) = some std ∧
      res = deriveOverallResult (validateTestResultsStd t std (t.herbType.getD "default")) ∧
      st' = setA t.testId
        ⟨{ t with
            validationResult := some (validateTestResultsStd t std (t.herbType.getD "default")),
            overallResult := res,
            createdAt := some now },
          H { t with
            validationResult := some (validateTestResultsStd t std (t.herbType.getD "default")),
            overallResult := res,
            createdAt := some now }⟩ store := by
  unfold submitTestResults at h
  split_ifs at h with h1 h2 h3
  rcases hlab : lookupA t.labId labs with _ | cert
  · simp only [hlab] at h
    exact Except.noConfusion h
  simp only [hlab] at h
  split_ifs at h with h4 h5
  unfold validateTestResults at h
  rcases hstd : ((lookupA (t.herbType.getD "default") stds).orElse
      (fun _ => lookupA "default" stds)) with _ | std
  · simp only [hstd] at h
    exact Except.noConfusion h
  simp only [hstd, Except.ok.injEq, Prod.mk.injEq] at h
  obtain ⟨hst, hres⟩ := h
  subst hres
  subst hst
  exact ⟨std, rfl, rfl, rfl⟩

theorem deriveOverallResult_eq (t : QualityTest) (std : QualityStandard) (herb : String) :
    deriveOverallResult (validateTestResultsStd t std herb) =
      if allViolations t std = [] then
        (if dnaWarnings t = [] then "Pass" else "Conditional-Pass")
      else "Fail" := by
  unfold deriveOverallResult validateTestResultsStd
  by_cases hv : allViolations t std = [] <;> by_cases hw : dnaWarnings t = [] <;>
    simp [hv, hw, List.isEmpty_iff, List.length_pos]

theorem deriveOverallResult_iffs (t : QualityTest) (std : QualityStandard) (herb : String) :
    (deriveOverallResult (validateTestResultsStd t std herb) = "Fail" ↔
      (validateTestResultsStd t std herb).violations ≠ []) ∧
    (deriveOverallResult (validateTestResultsStd t std herb) = "Conditional-Pass" ↔
      ((validateTestResultsStd t std herb).violations = [] ∧
        (validateTestResultsStd t std herb).warnings ≠ [])) ∧
    (deriveOverallResult (validateTestResultsStd t std herb) = "Pass" ↔
      ((validateTestResultsStd t std herb).violations = [] ∧
        (validateTestResultsStd t std herb).warnings = [])) := by
  have hviol : (validateTestResultsStd t std herb).violations = allViolations t std := rfl
  have hwarn : (validateTestResultsStd t std herb).warnings = dnaWarnings t := rfl
  rw [deriveOverallResult_eq, hviol, hwarn]
  by_cases hv : allViolations t std = [] <;> by_cases hw : dnaWarnings t = [] <;>
    simp [hv, hw]

/-- Scenario payload of the spec: moistureContent 15.5 percent validated
against the default standard. -/
def qualityTestC5 : QualityTest :=
  { testId := "TEST155", batchId := "BATCH1", labId := "LAB001",
    labName := "Ayurveda Research Institute Lab", labCertification := "NABL-ISO17025",
    testType := "Physical", testDate := "2024-03-01", sampleId := "S155",
    sampleQuantity := 10, herbType := none, moistureContent := some (31/2),
    ashContent := none, foreignMatter := none, activePrinciples := none,
    heavyMetals := none, pesticideResidues := none, microbialCount := none,
    dnaAuthenticity := none, overallResult := "Pass", testerId := "TECH1",
    createdAt := none, validationResult := none }

/-- Claim C5: for every payload accepted by submitTestResults, the stored
overallResult is Fail exactly when the standards comparison produced a
violation, Conditional-Pass exactly when it produced no violation and at
least one warning, and Pass otherwise; and the scenario payload with
moistureContent 15.5 against the default max of 15 yields exactly the
moisture violation and result Fail. -/
theorem submitTestResults_overall_result
    (H : QualityTest → String) (msp : String)
    (stds : List (String × QualityStandard)) (labs : List (String × LabCert))
    (store : List (String × StoredTest)) (now : String) (t : QualityTest)
    (st' : List (String × StoredTest)) (res : String)
    (h : submitTestResults H msp stds labs store now t = .ok (st', res)) :
    (∃ std, ((lookupA (t.herbType.getD "default") stds).orElse
        (fun _ => lookupA "default" stds)) = some std ∧
      (res = "Fail" ↔
        (validateTestResultsStd t std (t.herbType.getD "default")).violations ≠ []) ∧
      (res = "Conditional-Pass" ↔
        ((validateTestResultsStd t std (t.herbType.getD "default")).violations = [] ∧
          (validateTestResultsStd t std (t.herbType.getD "default")).warnings ≠ [])) ∧
      (res = "Pass" ↔
        ((validateTestResultsStd t std (t.herbType.getD "default")).violations = [] ∧
          (validateTestResultsStd t std (t.herbType.getD "default")).warnings = [])) ∧
      ∃ sT, lookupA t.testId st' = some sT ∧ sT.payload.overallResult = res) ∧
    (allViolations qualityTestC5 defaultStandard = [Violation.moisture (31/2) 15] ∧
      deriveOverallResult (validateTestResultsStd qualityTestC5 defaultStandard "default") =
        "Fail") := by
  constructor
  · obtain ⟨std, hstd, hres, hst⟩ := submitTestResults_ok_shape H msp stds labs store now t
      st' res h
    subst hres
    subst hst
    refine ⟨std, hstd,
      (deriveOverallResult_iffs t std (t.herbType.getD "default")).1,
      (deriveOverallResult_iffs t std (t.herbType.getD "default")).2.1,
      (deriveOverallResult_iffs t std (t.herbType.getD "default")).2.2,
      ⟨{ t with
          validationResult := some (validateTestResultsStd t std (t.herbType.getD "default")),
          overallResult :=
            deriveOverallResult (validateTestResultsStd t std (t.herbType.getD "default")),
          createdAt := some now },
        H { t with
          validationResult := some (validateTestResultsStd t std (t.herbType.getD "default")),
          overallResult :=
            deriveOverallResult (validateTestResultsStd t std (t.herbType.getD "default")),
          createdAt := some now }⟩, ?_, rfl⟩
    rw [lookupA_setA, if_pos rfl]
  · constructor
    · norm_num [allViolations, moistureViolations, ashViolations, foreignMatterViolations,
        principleViolations, heavyMetalViolations, pesticideViolations, microbialViolations,
        dnaViolations, maxBoundViolations, qualityTestC5, defaultStandard]
    · rw [deriveOverallResult_eq]
      norm_num [allViolations, moistureViolations, ashViolations, foreignMatterViolations,
        principleViolations, heavyMetalViolations, pesticideViolations, microbialViolations,
        dnaViolations, maxBoundViolations, qualityTestC5, defaultStandard]

/-- Passing witness payload for the submit pipeline. -/
def qualityTestW : QualityTest :=
  { testId := "TESTW", batchId := "BATCH1", labId := "LAB001",
    labName := "Ayurveda Research Institute Lab", labCertification := "NABL-ISO17025",
    testType := "Chemical", testDate := "2024-03-01", sampleId := "S1",
    sampleQuantity := 10, herbType := none, moistureContent := none, ashContent := none,
    foreignMatter := none, activePrinciples := none, heavyMetals := none,
    pesticideResidues := none, microbialCount := none, dnaAuthenticity := none,
    overallResult := "Pass", testerId := "TECH1", createdAt := none,
    validationResult := none }

def hashConstW : QualityTest → String := fun _ => "HASHW"

def storedQualityW : QualityTest :=
  { qualityTestW with
    validationResult := some (validateTestResultsStd qualityTestW defaultStandard "default"),
    overallResult := "Pass",
    createdAt := some "NOW" }

def submitStoreW : List (String × StoredTest) := [("TESTW", ⟨storedQualityW, "HASHW"⟩)]

theorem submitTestResults_overall_result_witness :
    (∃ std, ((lookupA (qualityTestW.herbType.getD "default") initQualityStandards).orElse
        (fun _ => lookupA "default" initQualityStandards)) = some std ∧
      ("Pass" = "Fail" ↔
        (validateTestResultsStd qualityTestW std
          (qualityTestW.herbType.getD "default")).violations ≠ []) ∧
      ("Pass" = "Conditional-Pass" ↔
        ((validateTestResultsStd qualityTestW std
            (qualityTestW.herbType.getD "default")).violations = [] ∧
          (validateTestResultsStd qualityTestW std
            (qualityTestW.herbType.getD "default")).warnings ≠ [])) ∧
      ("Pass" = "Pass" ↔
        ((validateTestResultsStd qualityTestW std
            (qualityTestW.herbType.getD "default")).violations = [] ∧
          (validateTestResultsStd qualityTestW std
            (qualityTestW.herbType.getD "default")).warnings = [])) ∧
      ∃ sT, lookupA qualityTestW.testId submitStoreW = some sT ∧
        sT.payload.overallResult = "Pass") ∧
    (allViolations qualityTestC5 defaultStandard = [Violation.moisture (31/2) 15] ∧
      deriveOverallResult (validateTestResultsStd qualityTestC5 defaultStandard "default") =
        "Fail") :=
  submitTestResults_overall_result hashConstW "LabMSP" initQualityStandards initLabs []
    "NOW" qualityTestW submitStoreW "Pass" rfl

/-- Claim C4: verifyTestAuthenticity reports isAuthentic true for every record
stored by submitTestResults and unmodified since; after a mutation of the
stored payload that leaves the stored hash in place and changes the
recomputed hash, it reports isAuthentic false.  SHA-256 is modelled as
the abstract function H, so tamper detection holds exactly when the
mutated payload hashes differently. -/
theorem verifyTestAuthenticity_detects_tampering
    (H : QualityTest → String) (msp : String)
    (stds : List (String × QualityStandard)) (labs : List (String × LabCert))
    (store store2 : List (String × StoredTest)) (now : String) (t : QualityTest)
    (st' : List (String × StoredTest)) (res : String)
    (id : String) (orig mutated : QualityTest) :
    (submitTestResults H msp stds labs store now t = .ok (st', res) →
      (verifyTestAuthenticity H st' t.testId).map (fun r => r.1) = .ok true) ∧
    (H mutated ≠ H orig →
      (verifyTestAuthenticity H (setA id ⟨mutated, H orig⟩ store2) id).map (fun r => r.1) =
        .ok false) := by
  constructor
  · intro h
    obtain ⟨std, hstd, hres, hst⟩ := submitTestResults_ok_shape H msp stds labs store now t
      st' res h
    subst hst
    have hl := lookupA_setA (β := StoredTest) t.testId t.testId
      ⟨{ t with
          validationResult := some (validateTestResultsStd t std (t.herbType.getD "default")),
          overallResult := res,
          createdAt := some now },
        H { t with
          validationResult := some (validateTestResultsStd t std (t.herbType.getD "default")),
          overallResult := res,
          createdAt := some now }⟩ store
    rw [if_pos rfl] at hl
    simp [verifyTestAuthenticity, hl, Except.map]
  · intro hne
    have hl := lookupA_setA (β := StoredTest) id id ⟨mutated, H orig⟩ store2
    rw [if_pos rfl] at hl
    simp [verifyTestAuthenticity, hl, Except.map, beq_eq_false_iff_ne]
    exact fun he => hne he.symm

def hashTestIdW : QualityTest → String := fun t => t.testId

def qualityTestOrigW : QualityTest := { qualityTestW with testId := "TX-ORIG" }

def qualityTestMutW : QualityTest := { qualityTestW with testId := "TX-MUT" }

theorem verifyTestAuthenticity_detects_tampering_witness :
    (verifyTestAuthenticity hashConstW submitStoreW qualityTestW.testId).map (fun r => r.1) =
      .ok true ∧
    (verifyTestAuthenticity hashTestIdW
        (setA "TX" ⟨qualityTestMutW, hashTestIdW qualityTestOrigW⟩ []) "TX").map
      (fun r => r.1) = .ok false :=
  ⟨(verifyTestAuthenticity_detects_tampering hashConstW "LabMSP" initQualityStandards
      initLabs [] [] "NOW" qualityTestW submitStoreW "Pass" "TX" qualityTestOrigW
      qualityTestMutW).1 rfl,
   (verifyTestAuthenticity_detects_tampering hashTestIdW "LabMSP" initQualityStandards
      initLabs [] [] "NOW" qualityTestW submitStoreW "Pass" "TX" qualityTestOrigW
      qualityTestMutW).2 (by decide)⟩

/-! ## C8 machinery: per-field tightening of a quality standard -/

def boundTightB (o' o : Option MaxBound) : Bool :=
  match o', o with
  | none, none => true
  | some b', some b => decide (b'.max ≤ b.max)
  | _, _ => false

def minEntryTightB (e' e : String × MinBound) : Bool :=
  e'.1 == e.1 && decide (e.2.min ≤ e'.2.min)

def metalEntryTightB (e' e : String × MaxBound) : Bool :=
  e'.1 == e.1 && decide (e'.2.max ≤ e.2.max)

def microbialEntryTightB (e' e : String × MicrobialStd) : Bool :=
  e'.1 == e.1 &&
  (match e'.2, e.2 with
   | .str s', .str s => s' == s
   | .bound m' _, .bound m _ => decide (m' ≤ m)
   | _, _ => false)

def forall2B {α β : Type} (r : α → β → Bool) : List α → List β → Bool
  | [], [] => true
  | a :: as, b :: bs => r a b && forall2B r as bs
  | _, _ => false

def optForall2B {α β : Type} (r : α → β → Bool) :
    Option (List α) → Option (List β) → Bool
  | none, none => true
  | some l', some l => forall2B r l' l
  | _, _ => false

/-- Pointwise per-field tightening: every max ceiling lowered or kept,
every min floor raised or kept, same fields present. -/
def tightens (std' std : QualityStandard) : Bool :=
  boundTightB std'.moisture std.moisture &&
  boundTightB std'.ash std.ash &&
  boundTightB std'.foreignMatter std.foreignMatter &&
  (std'.activePrinciples == std.activePrinciples) &&
  forall2B minEntryTightB std'.minBounds std.minBounds &&
  optForall2B metalEntryTightB std'.heavyMetals std.heavyMetals &&
  optForall2B microbialEntryTightB std'.microbialLimits std.microbialLimits

/-- Strictness rank of an overall outcome in the order Pass,
Conditional-Pass, Fail. -/
def severity (s : String) : ℕ :=
  if s = "Pass" then 0 else if s = "Conditional-Pass" then 1 else 2

theorem forall2B_lookupA {β γ : Type} (r : (String × β) → (String × γ) → Bool)
    (hkey : ∀ e' e, r e' e = true → e'.1 = e.1)
    (l' : List (String × β)) (l : List (String × γ))
    (h : forall2B r l' l = true) (k : String) :
    (lookupA k l' = none ∧ lookupA k l = none) ∨
    (∃ b' b, lookupA k l' = some b' ∧ lookupA k l = some b ∧ r (k, b') (k, b) = true) := by
  induction l' generalizing l with
  | nil =>
    cases l with
    | nil => exact Or.inl ⟨rfl, rfl⟩
    | cons e tl => simp [forall2B] at h
  | cons e' tl' ih =>
    cases l with
    | nil => simp [forall2B] at h
    | cons e tl =>
      simp only [forall2B, Bool.and_eq_true] at h
      obtain ⟨hr, htl⟩ := h
      obtain ⟨k1, b'⟩ := e'
      obtain ⟨k2, b⟩ := e
      have hk : k1 = k2 := hkey (k1, b') (k2, b) hr
      subst hk
      by_cases hkk : k = k1
      · subst hkk
        exact Or.inr ⟨b', b, by simp [lookupA], by simp [lookupA], hr⟩
      · simp only [lookupA, if_neg hkk]
        exact ih tl htl

theorem minEntryTightB_key (e' e : String × MinBound)
    (hr : minEntryTightB e' e = true) : e'.1 = e.1 := by
  simp only [minEntryTightB, Bool.and_eq_true, beq_iff_eq] at hr
  exact hr.1

theorem metalEntryTightB_key (e' e : String × MaxBound)
    (hr : metalEntryTightB e' e = true) : e'.1 = e.1 := by
  simp only [metalEntryTightB, Bool.and_eq_true, beq_iff_eq] at hr
  exact hr.1

theorem microbialEntryTightB_key (e' e : String × MicrobialStd)
    (hr : microbialEntryTightB e' e = true) : e'.1 = e.1 := by
  simp only [microbialEntryTightB, Bool.and_eq_true, beq_iff_eq] at hr
  exact hr.1

theorem maxBoundViolations_antitone (v : Option ℚ) (o o' : Option MaxBound)
    (mk : ℚ → ℚ → Violation) (hb : boundTightB o' o = true)
    (h : maxBoundViolations v o' mk = []) : maxBoundViolations v o mk = [] := by
  cases v with
  | none => rfl
  | some x =>
    cases o with
    | none => rfl
    | some b =>
      cases o' with
      | none => simp [boundTightB] at hb
      | some b' =>
        simp only [boundTightB, decide_eq_true_eq] at hb
        simp only [maxBoundViolations] at h ⊢
        split_ifs at h with hlt
        rw [if_neg (fun hlt2 => hlt (lt_of_le_of_lt hb hlt2))]

theorem principleViolations_antitone (t : QualityTest) (std std' : QualityStandard)
    (hap : std'.activePrinciples = std.activePrinciples)
    (hmb : forall2B minEntryTightB std'.minBounds std.minBounds = true)
    (hnn : ∀ l, t.activePrinciples = some l → ∀ e ∈ l, 0 ≤ e.2)
    (h : principleViolations t std' = []) : principleViolations t std = [] := by
  rcases hl : t.activePrinciples with _ | l
  · simp only [principleViolations, hl]
  · simp only [principleViolations, hl] at h ⊢
    cases hflag : std.activePrinciples with
    | false => simp [hflag]
    | true =>
      rw [hap, hflag] at h
      simp only [if_true] at h
      simp only [hflag, if_true]
      rw [List.filterMap_eq_nil_iff] at h ⊢
      intro e he
      have hfe' := h e he
      rcases forall2B_lookupA minEntryTightB minEntryTightB_key std'.minBounds
          std.minBounds hmb e.1.toLower with ⟨hn', hn⟩ | ⟨b', b, hs', hs, hrel⟩
      · rw [hn]
      · rw [hs]
        rw [hs'] at hfe'
        have hfe2 : (if b'.min ≠ 0 ∧ e.2 < b'.min then
            some (Violation.activePrinciple e.1 e.2 b'.min) else none) = none := hfe'
        simp only [minEntryTightB, Bool.and_eq_true, decide_eq_true_eq] at hrel
        obtain ⟨-, hmin⟩ := hrel
        have hcond : ¬(b.min ≠ 0 ∧ e.2 < b.min) := by
          rintro ⟨hb0, hblt⟩
          have hnn' : 0 ≤ e.2 := hnn l hl e he
          have hbpos : 0 < b.min := lt_of_le_of_lt hnn' hblt
          rw [if_pos ⟨ne_of_gt (lt_of_lt_of_le hbpos hmin),
            lt_of_lt_of_le hblt hmin⟩] at hfe2
          exact Option.noConfusion hfe2
        show (if b.min ≠ 0 ∧ e.2 < b.min then
          some (Violation.activePrinciple e.1 e.2 b.min) else none) = none
        rw [if_neg hcond]

theorem heavyMetalViolations_antitone (t : QualityTest) (std std' : QualityStandard)
    (hhm : optForall2B metalEntryTightB std'.heavyMetals std.heavyMetals = true)
    (h : heavyMetalViolations t std' = []) : heavyMetalViolations t std = [] := by
  rcases hl : t.heavyMetals with _ | l
  · simp only [heavyMetalViolations, hl]
  · rcases hsm : std.heavyMetals with _ | sl
    · simp only [heavyMetalViolations, hl, hsm]
    · rcases hsm' : std'.heavyMetals with _ | sl'
      · rw [hsm, hsm'] at hhm
        simp [optForall2B] at hhm
      · rw [hsm, hsm'] at hhm
        simp only [heavyMetalViolations, hl, hsm'] at h
        simp only [heavyMetalViolations, hl, hsm]
        simp only [optForall2B] at hhm
        rw [List.filterMap_eq_nil_iff] at h ⊢
        intro e he
        have hfe' := h e he
        rcases forall2B_lookupA metalEntryTightB metalEntryTightB_key sl' sl hhm e.1 with
          ⟨hn', hn⟩ | ⟨b', b, hs', hs, hrel⟩
        · rw [hn]
        · rw [hs]
          rw [hs'] at hfe'
          have hfe2 : (if b'.max < e.2 then
              some (Violation.heavyMetal e.1 e.2 b'.max) else none) = none := hfe'
          simp only [metalEntryTightB, Bool.and_eq_true, decide_eq_true_eq] at hrel
          obtain ⟨-, hmax⟩ := hrel
          have hcond : ¬(b.max < e.2) := by
            intro hblt
            rw [if_pos (lt_of_le_of_lt hmax hblt)] at hfe2
            exact Option.noConfusion hfe2
          show (if b.max < e.2 then some (Violation.heavyMetal e.1 e.2 b.max) else none) = none
          rw [if_neg hcond]

theorem microbialViolations_antitone (t : QualityTest) (std std' : QualityStandard)
    (hmi : optForall2B microbialEntryTightB std'.microbialLimits std.microbialLimits = true)
    (h : microbialViolations t std' = []) : microbialViolations t std = [] := by
  rcases hl : t.microbialCount with _ | l
  · simp only [microbialViolations, hl]
  · rcases hsm : std.microbialLimits with _ | sl
    · simp only [microbialViolations, hl, hsm]
    · rcases hsm' : std'.microbialLimits with _ | sl'
      · rw [hsm, hsm'] at hmi
        simp [optForall2B] at hmi
      · rw [hsm, hsm'] at hmi
        simp only [microbialViolations, hl, hsm'] at h
        simp only [microbialViolations, hl, hsm]
        simp only [optForall2B] at hmi
        rw [List.filterMap_eq_nil_iff] at h ⊢
        intro e he
        have hfe' := h e he
        rcases forall2B_lookupA microbialEntryTightB microbialEntryTightB_key sl' sl hmi
          e.1 with ⟨hn', hn⟩ | ⟨b', b, hs', hs, hrel⟩
        · rw [hn]
        · rw [hs]
          rw [hs'] at hfe'
          simp only [microbialEntryTightB, Bool.and_eq_true, beq_iff_eq] at hrel
          obtain ⟨-, hrel2⟩ := hrel
          cases b' with
          | str s' =>
            cases b with
            | str s =>
              simp only [beq_iff_eq] at hrel2
              subst hrel2
              exact hfe'
            | bound m u => simp at hrel2
          | bound m' u' =>
            cases b with
            | str s => simp at hrel2
            | bound m u =>
              simp only [decide_eq_true_eq] at hrel2
              have hfe2 : (match e.2 with
                | MicrobialVal.num c =>
                  if m' < c then some (Violation.microbialCount e.1 c m') else none
                | MicrobialVal.str _ => none) = none := hfe'
              show (match e.2 with
                | MicrobialVal.num c =>
                  if m < c then some (Violation.microbialCount e.1 c m) else none
                | MicrobialVal.str _ => none) = none
              cases hev : e.2 with
              | num c =>
                rw [hev] at hfe2
                have hfe3 : (if m' < c then
                    some (Violation.microbialCount e.1 c m') else none) = none := hfe2
                have hcond : ¬(m < c) := by
                  intro hblt
                  rw [if_pos (lt_of_le_of_lt hrel2 hblt)] at hfe3
                  exact Option.noConfusion hfe3
                show (if m < c then some (Violation.microbialCount e.1 c m) else none) = none
                rw [if_neg hcond]
              | str s => rfl

theorem allViolations_antitone (t : QualityTest) (std std' : QualityStandard)
    (ht : tightens std' std = true)
    (hnn : ∀ l, t.activePrinciples = some l → ∀ e ∈ l, 0 ≤ e.2)
    (h : allViolations t std' = []) : allViolations t std = [] := by
  unfold tightens at ht
  simp only [Bool.and_eq_true] at ht
  obtain ⟨⟨⟨⟨⟨⟨h1, h2⟩, h3⟩, h4⟩, h5⟩, h6⟩, h7⟩ := ht
  unfold allViolations at h ⊢
  rw [List.append_eq_nil, List.append_eq_nil, List.append_eq_nil, List.append_eq_nil,
    List.append_eq_nil, List.append_eq_nil, List.append_eq_nil] at h
  obtain ⟨⟨⟨⟨⟨⟨⟨hm, ha⟩, hf⟩, hp⟩, hh⟩, hpe⟩, hmi⟩, hd⟩ := h
  rw [List.append_eq_nil, List.append_eq_nil, List.append_eq_nil, List.append_eq_nil,
    List.append_eq_nil, List.append_eq_nil, List.append_eq_nil]
  refine ⟨⟨⟨⟨⟨⟨⟨?_, ?_⟩, ?_⟩, ?_⟩, ?_⟩, hpe⟩, ?_⟩, hd⟩
  · exact maxBoundViolations_antitone _ _ _ _ h1 hm
  · exact maxBoundViolations_antitone _ _ _ _ h2 ha
  · exact maxBoundViolations_antitone _ _ _ _ h3 hf
  · exact principleViolations_antitone t std std' (by simpa using h4) h5 hnn hp
  · exact heavyMetalViolations_antitone t std std' h6 hh
  · exact microbialViolations_antitone t std std' h7 hmi

/-- Claim C8: for every schema-valid payload and every per-field tightening of
the quality bounds (lowering a max ceiling or raising a min floor), the
derived outcome under the tightened standard is stricter than or equal
to the outcome under the original in the order Pass, Conditional-Pass,
Fail. -/
theorem quality_validation_monotone (t : QualityTest) (std std' : QualityStandard)
    (herb : String) (ht : tightens std' std = true)
    (hschema : qualityTestSchemaOk t = true) :
    severity (deriveOverallResult (validateTestResultsStd t std herb)) ≤
      severity (deriveOverallResult (validateTestResultsStd t std' herb)) := by
  have hnn : ∀ l, t.activePrinciples = some l → ∀ e ∈ l, 0 ≤ e.2 := by
    intro l hl e he
    unfold qualityTestSchemaOk at hschema
    simp only [Bool.and_eq_true] at hschema
    obtain ⟨⟨⟨⟨⟨⟨⟨⟨⟨⟨c1, c2⟩, c3⟩, c4⟩, c5⟩, c6⟩, c7⟩, c8⟩, c9⟩, c10⟩, c11⟩ := hschema
    rw [hl] at c7
    simp only [List.all_eq_true, decide_eq_true_eq] at c7
    exact c7 e he
  rw [deriveOverallResult_eq, deriveOverallResult_eq]
  by_cases hv : allViolations t std = []
  · rw [if_pos hv]
    by_cases hw : dnaWarnings t = []
    · rw [if_pos hw]
      exact Nat.zero_le _
    · rw [if_neg hw]
      by_cases hv' : allViolations t std' = []
      · rw [if_pos hv']
      · rw [if_neg hv']
        decide
  · have hv' : allViolations t std' ≠ [] :=
      fun hz => hv (allViolations_antitone t std std' ht hnn hz)
    rw [if_neg hv, if_neg hv']

def stdWitA : QualityStandard :=
  { moisture := some ⟨15, "%"⟩, ash := none, foreignMatter := none,
    activePrinciples := false, minBounds := [], heavyMetals := none,
    microbialLimits := none }

def stdWitB : QualityStandard := { stdWitA with moisture := some ⟨10, "%"⟩ }

def qualityTestC8 : QualityTest :=
  { qualityTestW with testId := "TEST8", moistureContent := some 12 }

theorem quality_validation_monotone_witness :
    severity (deriveOverallResult (validateTestResultsStd qualityTestC8 stdWitA "default")) ≤
      severity (deriveOverallResult (validateTestResultsStd qualityTestC8 stdWitB "default")) :=
  quality_validation_monotone qualityTestC8 stdWitA stdWitB "default" (by decide) (by decide)

/-! ## GeoFencing contract

From `geofencing-contract.js`, `schemas.js` and `utils.js`.  Schema-side
coordinates are rationals; the great-circle geometry of
TraceabilityUtils runs over the reals. -/

structure GpsInput where
  latitude : Option ℚ
  longitude : Option ℚ
  accuracy : Option ℚ
  timestamp : Option String
deriving DecidableEq

/-- Joi gpsCoordinatesSchema: latitude in -90..90 required, longitude in
-180..180 required, accuracy nonnegative optional, timestamp required. -/
def gpsCoordinatesSchemaOk (g : GpsInput) : Bool :=
  (match g.latitude with
   | some v => decide (-90 ≤ v) && decide (v ≤ 90)
   | none => false) &&
  (match g.longitude with
   | some v => decide (-180 ≤ v) && decide (v ≤ 180)
   | none => false) &&
  (match g.accuracy with
   | some a => decide (0 ≤ a)
   | none => true) &&
  g.timestamp.isSome

structure ZoneInput where
  zoneId : Option String
  zoneName : Option String
  herbTypes : Option (List String)
  boundaries : Option (List GpsInput)
  centerPoint : Option GpsInput
  radius : Option ℚ
  altitudeMin : Option ℚ
  altitudeMax : Option ℚ
  soilType : Option String
  climateZone : Option String
  allowedSeasons : Option (List String)
  harvestWindowStart : Option String
  harvestWindowEnd : Option String
  maxAnnualHarvest : Option ℚ
  minRegenerationPeriod : Option ℚ
  maxHarvestPercentage : Option ℚ
  isActive : Option Bool
deriving DecidableEq

def seasonNameValid (s : String) : Bool :=
  s == "Spring" || s == "Summer" || s == "Monsoon" || s == "Autumn" || s == "Winter"

/-- Joi geoFencingZoneSchema: zoneId, zoneName and herbTypes required;
boundaries is a required array of at least 3 schema-valid coordinates;
centerPoint is a required schema-valid coordinate; radius is an optional
positive number; the remaining optional constraints as declared. -/
def geoFencingZoneSchemaOk (z : ZoneInput) : Bool :=
  z.zoneId.isSome && z.zoneName.isSome && z.herbTypes.isSome &&
  (match z.boundaries with
   | some l => decide (3 ≤ l.length) && l.all gpsCoordinatesSchemaOk
   | none => false) &&
  (match z.centerPoint with
   | some c => gpsCoordinatesSchemaOk c
   | none => false) &&
  (match z.radius with
   | some r => decide (0 < r)
   | none => true) &&
  (match z.allowedSeasons with
   | some l => l.all seasonNameValid
   | none => true) &&
  (match z.maxAnnualHarvest with
   | some q => decide (0 < q)
   | none => true) &&
  (match z.minRegenerationPeriod with
   | some q => decide (0 < q)
   | none => true) &&
  (match z.maxHarvestPercentage with
   | some q => decide (0 ≤ q) && decide (q ≤ 100)
   | none => true)

/-- Modelled from the spec: the claimed reading of the zone schema in
which exactly one of a circular shape (centerPoint with positive radius)
or a polygonal boundary of at least 3 vertices is required (radius XOR
boundary). -/
def specZoneSchemaOk (z : ZoneInput) : Bool :=
  z.zoneId.isSome && z.zoneName.isSome && z.herbTypes.isSome &&
  (let circular :=
     (match z.centerPoint with
      | some c => gpsCoordinatesSchemaOk c
      | none => false) &&
     (match z.radius with
      | some r => decide (0 < r)
      | none => false)
   let polygonal :=
     match z.boundaries with
     | some l => decide (3 ≤ l.length) && l.all gpsCoordinatesSchemaOk
     | none => false
   Bool.xor circular polygonal)

/-- Zone record persisted by addGeoFencingZone: the validated input plus
the createdAt stamp, with the Joi default for isActive. -/
structure StoredZone where
  zoneId : String
  zoneName : String
  herbTypes : List String
  boundaries : Option (List GpsInput)
  centerPoint : Option GpsInput
  radius : Option ℚ
  isActive : Bool
  createdAt : String
deriving DecidableEq

def storeZone (z : ZoneInput) (now : String) : StoredZone :=
  { zoneId := z.zoneId.getD "", zoneName := z.zoneName.getD "",
    herbTypes := z.herbTypes.getD [], boundaries := z.boundaries,
    centerPoint := z.centerPoint, radius := z.radius,
    isActive := z.isActive.getD true, createdAt := now }

/-- addGeoFencingZone(ctx, zoneData): regulator gate, schema validation,
duplicate zoneId check, then persist with a creation timestamp. -/
def addGeoFencingZone (msp now : String) (z : ZoneInput)
    (zones : List (String × StoredZone)) : Except String (List (String × StoredZone)) :=
  if msp ≠ "RegulatorMSP" then .error "Only regulators can add geofencing zones"
  else if ¬ geoFencingZoneSchemaOk z then .error "Invalid zone data"
  else
    match z.zoneId with
    | none => .error "Invalid zone data"
    | some zid =>
      if (lookupA zid zones).isSome then .error ("Zone " ++ zid ++ " already exists")
      else .ok (setA zid (storeZone z now) zones)

structure GeoPoint where
  latitude : ℝ
  longitude : ℝ

open scoped Classical

/-- Math.atan2 on the reals. -/
noncomputable def atan2 (y x : ℝ) : ℝ :=
  if 0 < x then Real.arctan (y / x)
  else if x < 0 ∧ 0 ≤ y then Real.arctan (y / x) + Real.pi
  else if x < 0 ∧ y < 0 then Real.arctan (y / x) - Real.pi
  else if x = 0 ∧ 0 < y then Real.pi / 2
  else if x = 0 ∧ y < 0 then -(Real.pi / 2)
  else 0

/-- TraceabilityUtils.calculateDistance: haversine great-circle distance
in metres over an Earth radius of 6371e3. -/
noncomputable def calculateDistance (point1 point2 : GeoPoint) : ℝ :=
  let R : ℝ := 6371000
  let phi1 := point1.latitude * Real.pi / 180
  let phi2 := point2.latitude * Real.pi / 180
  let dPhi := (point2.latitude - point1.latitude) * Real.pi / 180
  let dLam := (point2.longitude - point1.longitude) * Real.pi / 180
  let a := Real.sin (dPhi / 2) * Real.sin (dPhi / 2) +
    Real.cos phi1 * Real.cos phi2 * Real.sin (dLam / 2) * Real.sin (dLam / 2)
  let c := 2 * atan2 (Real.sqrt a) (Real.sqrt (1 - a))
  R * c

structure CircularZone where
  centerPoint : GeoPoint
  radius : ℝ

/-- TraceabilityUtils.isPointInCircularZone: distance from the center
compared against the radius with a non-strict inequality. -/
def isPointInCircularZone (point : GeoPoint) (zone : CircularZone) : Prop :=
  calculateDistance point zone.centerPoint ≤ zone.radius

/-- TraceabilityUtils.isPointInPolygon: ray casting over the ordered
boundary vertices, with j running one behind i starting from the last
vertex. -/
noncomputable def isPointInPolygon (point : GeoPoint) (boundaries : List GeoPoint) : Bool :=
  let x := point.latitude
  let y := point.longitude
  let edges :=
    match boundaries.getLast? with
    | none => []
    | some lastPoint => boundaries.zip (lastPoint :: boundaries)
  edges.foldl (fun inside pq =>
    let xi := pq.1.latitude
    let yi := pq.1.longitude
    let xj := pq.2.latitude
    let yj := pq.2.longitude
    if ((y < yi) ≠ (y < yj)) ∧ (x < (xj - xi) * (y - yi) / (yj - yi) + xi) then !inside
    else inside) false

/-- JavaScript truthiness of a number-valued property: absent or zero is
falsy. -/
def jsFalsyNum (o : Option ℚ) : Bool :=
  match o with
  | none => true
  | some v => v == 0

def toGeoPoint (g : GpsInput) : GeoPoint :=
  ⟨((g.latitude.getD 0 : ℚ) : ℝ), ((g.longitude.getD 0 : ℚ) : ℝ)⟩

structure GeoValidationResult where
  isValid : Bool
  validZones : List (String × Option ℝ)

/-- validateGPSCoordinates(ctx, herbType, gpsData): destructures the
coordinates and rejects when either is falsy, scans the active zones for
the herb, and tests containment with the polygon or circular predicate
(a zone with boundaries shorter than 3 falls through to the circular
test; a zero radius is falsy and yields no containment test). -/
noncomputable def validateGPSCoordinates (herbType : String) (g : GpsInput)
    (zones : List (String × StoredZone)) : Except String GeoValidationResult :=
  if jsFalsyNum g.latitude || jsFalsyNum g.longitude then
    .error "Invalid GPS coordinates: latitude and longitude required"
  else
    let applicable := (zones.map Prod.snd).filter
      (fun z => z.isActive && z.herbTypes.contains herbType)
    if applicable.isEmpty then
      .ok { isValid := false, validZones := [] }
    else
      let point := toGeoPoint g
      let validZones := applicable.filterMap (fun z =>
        let inPoly :=
          match z.boundaries with
          | some bs => if 3 ≤ bs.length then some (isPointInPolygon point (bs.map toGeoPoint))
                       else none
          | none => none
        let isInZone :=
          match inPoly with
          | some b => b
          | none =>
            match z.centerPoint, z.radius with
            | some c, some r =>
              if r ≠ 0 then
                (if isPointInCircularZone point ⟨toGeoPoint c, (r : ℝ)⟩ then true else false)
              else false
            | _, _ => false
        if isInZone then
          some (z.zoneId,
            match z.centerPoint with
            | some c => some (calculateDistance point (toGeoPoint c))
            | none => none)
        else none)
      .ok { isValid := !validZones.isEmpty, validZones := validZones }

/-- Claim C7: a point is reported inside a circular zone exactly when its
haversine great-circle distance to the center is below the radius or
equal to it: the boundary case at exactly the radius is contained
(inclusive comparison). -/
theorem isPointInCircularZone_iff_distance_le (point : GeoPoint) (zone : CircularZone) :
    isPointInCircularZone point zone ↔
      (calculateDistance point zone.centerPoint < zone.radius ∨
        calculateDistance point zone.centerPoint = zone.radius) :=
  le_iff_lt_or_eq

/-- Claim C10: validateGPSCoordinates throws its latitude-and-longitude-required
error for every coordinate pair with latitude or longitude exactly 0,
because the presence check tests JavaScript truthiness; yet 0 lies inside
the valid ranges of the coordinate schema. -/
theorem validateGPSCoordinates_zero_rejected
    (herbType : String) (g : GpsInput) (zones : List (String × StoredZone))
    (h : g.latitude = some 0 ∨ g.longitude = some 0) :
    validateGPSCoordinates herbType g zones =
      .error "Invalid GPS coordinates: latitude and longitude required" ∧
    gpsCoordinatesSchemaOk ⟨some 0, some 0, none, some "2024-01-01T00:00:00Z"⟩ = true := by
  constructor
  · have hc : (jsFalsyNum g.latitude || jsFalsyNum g.longitude) = true := by
      rcases h with h | h <;> rw [h] <;> simp [jsFalsyNum]
    unfold validateGPSCoordinates
    rw [if_pos hc]
  · decide

theorem validateGPSCoordinates_zero_rejected_witness :
    validateGPSCoordinates "Ashwagandha" ⟨some 0, some 76, none, some "T"⟩ [] =
      .error "Invalid GPS coordinates: latitude and longitude required" ∧
    gpsCoordinatesSchemaOk ⟨some 0, some 0, none, some "2024-01-01T00:00:00Z"⟩ = true :=
  validateGPSCoordinates_zero_rejected "Ashwagandha" ⟨some 0, some 76, none, some "T"⟩ []
    (Or.inl rfl)

def gpsVertex (la lo : ℚ) : GpsInput := ⟨some la, some lo, none, some "T"⟩

/-- Circular-shape-only zone input: centerPoint with radius, no
boundaries. -/
def zoneCircOnly : ZoneInput :=
  { zoneId := some "ZONE100", zoneName := some "Circular Only",
    herbTypes := some ["Tulsi"], boundaries := none,
    centerPoint := some (gpsVertex 10 76), radius := some 50000,
    altitudeMin := none, altitudeMax := none, soilType := none, climateZone := none,
    allowedSeasons := none, harvestWindowStart := none, harvestWindowEnd := none,
    maxAnnualHarvest := none, minRegenerationPeriod := none,
    maxHarvestPercentage := none, isActive := none }

/-- Zone input with both a circular shape and a 3-vertex boundary. -/
def zoneBothShapes : ZoneInput :=
  { zoneCircOnly with
    zoneId := some "ZONE101",
    boundaries := some [gpsVertex 18 73, gpsVertex 19 74, gpsVertex 18 74] }

/-- Claim C6 counterexample: the claimed radius-XOR-boundary schema
disagrees with the implemented schema on concrete zones: a circular-only
zone is schema-valid under the claimed reading but rejected by
addGeoFencingZone, and a zone carrying both shapes is invalid under the
claimed reading but accepted. -/
theorem addGeoFencingZone_xor_schema_counterexample :
    specZoneSchemaOk zoneCircOnly = true ∧
    geoFencingZoneSchemaOk zoneCircOnly = false ∧
    (∃ e, addGeoFencingZone "RegulatorMSP" "T0" zoneCircOnly [] = .error e) ∧
    specZoneSchemaOk zoneBothShapes = false ∧
    geoFencingZoneSchemaOk zoneBothShapes = true ∧
    (∃ st, addGeoFencingZone "RegulatorMSP" "T0" zoneBothShapes [] = .ok st) :=
  ⟨by decide, by decide, ⟨_, rfl⟩, by decide, by decide, ⟨_, rfl⟩⟩

/-- Claim C6 amended: addGeoFencingZone rejects when the zoneId already exists
and whenever schema validation fails, with latitude in -90..90 and
longitude in -180..180; but the schema requires BOTH a centerPoint and a
boundary of at least 3 vertices, with radius merely optional (positive
when present), rather than exactly one of the two shapes. -/
theorem addGeoFencingZone_rejects (msp now : String) (z : ZoneInput)
    (zones : List (String × StoredZone)) :
    (∀ zid, z.zoneId = some zid → (lookupA zid zones).isSome = true →
      ∃ e, addGeoFencingZone msp now z zones = .error e) ∧
    (geoFencingZoneSchemaOk z = false →
      ∃ e, addGeoFencingZone msp now z zones = .error e) ∧
    (geoFencingZoneSchemaOk z = true →
      z.centerPoint.isSome = true ∧ ∃ l, z.boundaries = some l ∧ 3 ≤ l.length) ∧
    (msp = "RegulatorMSP" → geoFencingZoneSchemaOk z = true →
      ∀ zid, z.zoneId = some zid → lookupA zid zones = none →
        ∃ st, addGeoFencingZone msp now z zones = .ok st) := by
  refine ⟨?_, ?_, ?_, ?_⟩
  · intro zid hzid hdup
    unfold addGeoFencingZone
    by_cases h1 : msp ≠ "RegulatorMSP"
    · rw [if_pos h1]
      exact ⟨_, rfl⟩
    rw [if_neg h1]
    by_cases h2 : ¬ geoFencingZoneSchemaOk z
    · rw [if_pos h2]
      exact ⟨_, rfl⟩
    rw [if_neg h2]
    simp only [hzid]
    rw [if_pos hdup]
    exact ⟨_, rfl⟩
  · intro hs
    unfold addGeoFencingZone
    by_cases h1 : msp ≠ "RegulatorMSP"
    · rw [if_pos h1]
      exact ⟨_, rfl⟩
    rw [if_neg h1]
    rw [if_pos (by simp [hs])]
    exact ⟨_, rfl⟩
  · intro hs
    unfold geoFencingZoneSchemaOk at hs
    simp only [Bool.and_eq_true] at hs
    obtain ⟨⟨⟨⟨⟨⟨⟨⟨⟨hA, hB⟩, hC⟩, hD⟩, hE⟩, hF⟩, hG⟩, hH⟩, hI⟩, hJ⟩ := hs
    constructor
    · rcases hc : z.centerPoint with _ | c
      · rw [hc] at hE
        exact Bool.noConfusion hE
      · rfl
    · rcases hb : z.boundaries with _ | l
      · rw [hb] at hD
        exact Bool.noConfusion hD
      · rw [hb] at hD
        simp only [Bool.and_eq_true, decide_eq_true_eq] at hD
        exact ⟨l, rfl, hD.1⟩
  · intro hm hs zid hzid hfree
    unfold addGeoFencingZone
    rw [if_neg (by simp [hm])]
    rw [if_neg (by simp [hs])]
    simp only [hzid]
    rw [if_neg (by simp [hfree])]
    exact ⟨_, rfl⟩

theorem addGeoFencingZone_rejects_witness :
    (∃ e, addGeoFencingZone "RegulatorMSP" "T0" zoneBothShapes
      [("ZONE101", storeZone zoneBothShapes "T0")] = .error e) ∧
    (∃ e, addGeoFencingZone "RegulatorMSP" "T0" zoneCircOnly [] = .error e) ∧
    (zoneBothShapes.centerPoint.isSome = true ∧
      ∃ l, zoneBothShapes.boundaries = some l ∧ 3 ≤ l.length) ∧
    (∃ st, addGeoFencingZone "RegulatorMSP" "T0" zoneBothShapes [] = .ok st) :=
  ⟨(addGeoFencingZone_rejects "RegulatorMSP" "T0" zoneBothShapes
      [("ZONE101", storeZone zoneBothShapes "T0")]).1 "ZONE101" rfl rfl,
   (addGeoFencingZone_rejects "RegulatorMSP" "T0" zoneCircOnly []).2.1 rfl,
   (addGeoFencingZone_rejects "RegulatorMSP" "T0" zoneBothShapes []).2.2.1 rfl,
   (addGeoFencingZone_rejects "RegulatorMSP" "T0" zoneBothShapes []).2.2.2 rfl rfl
     "ZONE101" rfl rfl⟩
